import Mathlib

/-!
# Color Run — verification of the per-frame simulation engine

Shallow embedding of `src/components/GameCanvas.tsx` (the only source file).
JavaScript numbers are modelled as rationals (`ℚ`) for positions, velocities
and speeds, and as integers (`ℤ`) or naturals (`ℕ`) for the counters that the
code only ever sets to integer constants, increments, or decrements.  Colors
are the palette strings themselves.  Every call to `Math.random()` is replaced
by a rational drawn from a per-tick oracle, constrained to `[0, 1)` exactly as
the JS builtin guarantees.  Rendering (canvas drawing) and the particle system
are elided: the spec fixes particles as purely cosmetic ("its absence must
never affect gameplay logic"), and indeed no particle field is ever read by
the simulation code.  `localStorage` (the ScoreStore) is modelled as a `store`
field threaded through the state and written exactly where `saveBestScore` is
called.
-/

namespace ColorRun

-- The Batteries rational primitives are `@[irreducible]`, which would keep
-- concrete executions from evaluating; restore default reducibility locally.
attribute [local semireducible] Rat.mul Rat.add Rat.sub Rat.inv

/-- `GAME_CONFIG.COLORS` (GameCanvas.tsx line 9). -/
def COLORS : List String :=
  ["#ff4757", "#2ed573", "#ffa502", "#3742fa", "#ff6b9d"]

/-- Obstacle type, `"normal" | "bonus" | "tall"` (line 60). -/
inductive OType where
  | normal
  | bonus
  | tall
deriving DecidableEq, Repr

/-- Power-up type, `"shield" | "bonus" | "life" | "jumpBoost"` (line 67). -/
inductive PType where
  | shield
  | bonus
  | life
  | jumpBoost
deriving DecidableEq, Repr

/-- Collision classification, `"pass" | "jump" | "collision"` (line 305).
The `"collision"` alternative is declared in the TS type but never produced. -/
inductive CType where
  | pass
  | jump
  | collision
deriving DecidableEq, Repr

/-- Result type of `checkCollision` (line 305). -/
structure CollisionResult where
  hit : Bool
  ctype : CType
deriving DecidableEq, Repr

/-- `interface Player` (lines 42-54). -/
structure Player where
  x : ℚ
  y : ℚ
  radius : ℚ
  vy : ℚ
  color : String
  isJumping : Bool
  jumpCount : ℕ
  shield : ℤ
  jumpBoost : ℤ
  lives : ℤ
  invincible : ℤ
deriving DecidableEq, Repr

/-- `interface Obstacle` (lines 56-62).  The optional `colorChanged?` field is
always written as a definite boolean by `spawnObstacle`, so it is a `Bool`. -/
structure Obstacle where
  x : ℚ
  color : String
  passed : Bool
  type : OType
  colorChanged : Bool
deriving DecidableEq, Repr

/-- `interface PowerUp` (lines 64-69). -/
structure PowerUp where
  x : ℚ
  y : ℚ
  type : PType
  collected : Bool
deriving DecidableEq, Repr

/-- `timersRef` (line 102).  `colorChange` is declared and initialised but
never read or written by the game loop. -/
structure Timers where
  spawn : ℕ
  colorChange : ℕ
  powerUpSpawn : ℕ
deriving DecidableEq, Repr

/-- `interface GameState` (lines 82-96) plus the spawn timers of `timersRef`
and the persisted best score of `localStorage` (`store`).  Particles are
render-only (spec §3) and elided. -/
structure Game where
  player : Player
  obstacles : List Obstacle
  powerUps : List PowerUp
  score : ℤ
  combo : ℕ
  comboTimer : ℤ
  bestScore : ℤ
  level : ℤ
  isGameOver : Bool
  colorChangeOnNextObstacle : Bool
  backgroundOffset : ℚ
  gameStarted : Bool
  timers : Timers
  store : ℤ
deriving DecidableEq, Repr

/-- `Math.floor(r * n)` for a JS random `r`, used to index arrays of length
`n` (e.g. `Math.floor(Math.random() * GAME_CONFIG.COLORS.length)`). -/
def jsFloorMul (r : ℚ) (n : ℕ) : ℕ :=
  (⌊r * n⌋).toNat

/-- `Math.floor(Math.random() * 10) + 1` — the 1..10 color-change roll
(line 760). -/
def jsRoll (r : ℚ) : ℤ :=
  ⌊r * 10⌋ + 1

/-- `createInitialGameState` (lines 140-169); `store` is the value
`getBestScore()` reads from `localStorage`. -/
def initialGame (store : ℤ) : Game :=
  { player :=
      { x := 100
        y := 300
        radius := 20
        vy := 0
        color := COLORS.getD 0 "#ff4757"
        isJumping := false
        jumpCount := 0
        shield := 0
        jumpBoost := 0
        lives := 3
        invincible := 0 }
    obstacles := []
    powerUps := []
    score := 0
    combo := 0
    comboTimer := 0
    bestScore := store
    level := 1
    isGameOver := false
    colorChangeOnNextObstacle := false
    backgroundOffset := 0
    gameStarted := false
    timers := { spawn := 0, colorChange := 0, powerUpSpawn := 0 }
    store := store }

/-- `handleJump` (lines 263-298).  A jump before the game starts only starts
the game; during game over it is a no-op; otherwise it applies the impulse
(`JUMP_POWER * 1.4` under jump boost) only while `jumpCount < 2`.
Particle emission (lines 287-296) is render-only and elided. -/
def handleJump (g : Game) : Game :=
  if g.gameStarted = false then { g with gameStarted := true }
  else if g.isGameOver = true then g
  else if g.player.jumpCount < 2 then
    let jumpPower : ℚ := if g.player.jumpBoost > 0 then -12 * (7/5) else -12
    { g with
        player :=
          { g.player with
              vy := jumpPower
              isJumping := true
              jumpCount := g.player.jumpCount + 1 } }
  else g

/-- Obstacle height: `OBSTACLE.HEIGHT`, times `1.8` for tall (lines 307-310). -/
def obstacleHeight (t : OType) : ℚ :=
  if t = OType.tall then 60 * (9/5) else 60

/-- `canvas.height - obstacleHeight - 20` (line 312). -/
def obstacleTop (ch : ℚ) (t : OType) : ℚ :=
  ch - obstacleHeight t - 20

/-- `canvas.height - 20` (line 313). -/
def obstacleBottom (ch : ℚ) : ℚ :=
  ch - 20

/-- The x-axis overlap test of `checkCollision` (lines 316-318);
`OBSTACLE.WIDTH = 30`. -/
def xOverlap (p : Player) (o : Obstacle) : Prop :=
  o.x < p.x + p.radius ∧ o.x + 30 > p.x - p.radius

instance (p : Player) (o : Obstacle) : Decidable (xOverlap p o) := by
  unfold xOverlap; infer_instance

/-- `checkCollision` (lines 301-339), for canvas height `ch`. -/
def checkCollision (p : Player) (o : Obstacle) (ch : ℚ) : CollisionResult :=
  if ¬ xOverlap p o then { hit := false, ctype := CType.pass }
  else if p.y + p.radius ≤ obstacleTop ch o.type + 5 then
    { hit := false, ctype := CType.jump }
  else if p.y + p.radius > obstacleTop ch o.type ∧
      p.y - p.radius < obstacleBottom ch then
    { hit := true, ctype := CType.pass }
  else { hit := false, ctype := CType.pass }

/-- `checkPowerUpCollision` (lines 342-348).  The source compares
`Math.sqrt(dx² + dy²) < player.radius + 15`; since the square root is
non-negative, this holds iff the bound is positive and exceeds the squared
distance, which avoids an irrational square root in the model. -/
def checkPowerUpCollision (p : Player) (q : PowerUp) : Bool :=
  let dx := p.x - (q.x + 15)
  let dy := p.y - q.y
  decide (0 < p.radius + 15 ∧ dx * dx + dy * dy < (p.radius + 15) * (p.radius + 15))

/-- The obstacle built by `spawnObstacle` (lines 203-227): `x` is the canvas
width, the color is drawn uniformly from the palette, and the type is 10%
bonus / 15% tall / 75% normal. -/
def spawnedObstacle (cw : ℚ) (colorRand typeRand : ℚ) : Obstacle :=
  { x := cw
    color := COLORS.getD (jsFloorMul colorRand COLORS.length) "#ff4757"
    passed := false
    type :=
      if typeRand < 1/10 then OType.bonus
      else if typeRand < 1/4 then OType.tall
      else OType.normal
    colorChanged := false }

/-- The power-up built by `spawnPowerUp` (lines 230-253): fixed `y = 350`,
life with probability `LIFE_SPAWN_CHANCE = 0.05`, otherwise uniform among
shield / bonus / jumpBoost. -/
def spawnedPowerUp (cw : ℚ) (lifeRand typeRand : ℚ) : PowerUp :=
  { x := cw
    y := 350
    type :=
      if lifeRand < 1/20 then PType.life
      else [PType.shield, PType.bonus, PType.jumpBoost].getD (jsFloorMul typeRand 3) PType.shield
    collected := false }

/-- The collision/scoring/damage block of the obstacle `forEach` body
(lines 594 and 657-749).  The obstacle first moves left by the current speed
(line 594); drawing (lines 596-655) is elided.  The returned `Bool` records
whether the game-over `return` (line 730) fired — in the source that `return`
exits only the `forEach` callback, skipping the color-shuffle block for this
obstacle while later obstacles still run.  Particle emissions are elided. -/
def collisionPhase (ch speed : ℚ) (g : Game) (o : Obstacle) :
    Game × Obstacle × Bool :=
  let o := { o with x := o.x - speed }
  let c := checkCollision g.player o ch
  if c.hit = true ∧ c.ctype = CType.pass ∧ g.player.color = o.color then
    -- same-color pass-through (lines 661-688)
    if o.passed = false then
      let baseScore : ℤ :=
        if o.type = OType.bonus then 20
        else if o.type = OType.tall then 15
        else 10
      let comboBonus : ℤ := (g.combo / 5 : ℕ) * 5
      ({ g with
          score := g.score + (baseScore + comboBonus)
          combo := g.combo + 1
          comboTimer := 600 },
        { o with passed := true }, false)
    else (g, o, false)
  else if c.hit = true ∧ c.ctype = CType.pass ∧ g.player.color ≠ o.color then
    -- different-color pass-through (lines 689-734)
    if g.player.invincible ≤ 0 then
      if g.player.shield > 0 then
        -- shielded (lines 697-706)
        let g := { g with
            player := { g.player with shield := 0 }
            combo := 0
            comboTimer := 0 }
        if o.passed = false then
          ({ g with score := g.score + 1 }, { o with passed := true }, false)
        else (g, o, false)
      else
        -- unshielded damage (lines 707-731)
        let p : Player := { g.player with lives := g.player.lives - 1, invincible := 120 }
        let g := { g with player := p, combo := 0, comboTimer := 0 }
        if p.lives ≤ 0 then
          let g := { g with isGameOver := true }
          let g :=
            if g.score > g.bestScore then
              { g with bestScore := g.score, store := g.score }
            else g
          (g, o, true)
        else (g, o, false)
    else (g, o, false)
  else if c.ctype = CType.jump ∧ o.x < g.player.x ∧ o.x + 30 > g.player.x then
    -- jump-over (lines 735-749)
    if o.passed = false then
      let baseScore : ℤ := if o.type = OType.tall then 2 else 1
      ({ g with score := g.score + baseScore }, { o with passed := true }, false)
    else (g, o, false)
  else (g, o, false)

/-- The post-pass color-shuffle block (lines 751-767): once a passed obstacle
has fully cleared behind the player and has not yet rolled, a roll of 1..10
at most 4 — taken only when the player's current color equals the obstacle's —
flags a pending player-color change; `colorChanged` latches either way.
`roll` is the raw `Math.random()` value of line 760. -/
def colorShufflePhase (roll : ℚ) (g : Game) (o : Obstacle) : Game × Obstacle :=
  if o.passed = true ∧ o.x + 30 < g.player.x - g.player.radius - 10 ∧
      o.colorChanged = false then
    let g :=
      if g.player.color = o.color ∧ jsRoll roll ≤ 4 then
        { g with colorChangeOnNextObstacle := true }
      else g
    (g, { o with colorChanged := true })
  else (g, o)

/-- One iteration of the obstacle `forEach` body (lines 593-768): collision
processing followed — unless the game-over `return` fired — by the
color-shuffle check. -/
def processObstacle (ch speed roll : ℚ) (g : Game) (o : Obstacle) :
    Game × Obstacle :=
  match collisionPhase ch speed g o with
  | (g1, o1, true) => (g1, o1)
  | (g1, o1, false) => colorShufflePhase roll g1 o1

/-- The whole `obstacles.forEach` (lines 593-768): the state threads through
the iterations in order; `rolls i` is the `Math.random()` of line 760 for the
obstacle at position `i`. -/
def stepObstacles (ch speed : ℚ) (rolls : ℕ → ℚ) :
    ℕ → Game → List Obstacle → Game × List Obstacle
  | _, g, [] => (g, [])
  | i, g, o :: rest =>
    let r := processObstacle ch speed (rolls i) g o
    let s := stepObstacles ch speed rolls (i + 1) r.1 rest
    (s.1, r.2 :: s.2)

/-- One iteration of the power-up `forEach` body (lines 771-860): move left
(line 772), then on first collision latch `collected` and apply the effect
(lines 838-859).  `POWERUP.DURATION = 300`; life capped at 3 lives. -/
def processPowerUp (speed : ℚ) (g : Game) (q : PowerUp) : Game × PowerUp :=
  let q := { q with x := q.x - speed }
  if checkPowerUpCollision g.player q = true ∧ q.collected = false then
    let q := { q with collected := true }
    match q.type with
    | PType.shield => ({ g with player := { g.player with shield := 300 } }, q)
    | PType.bonus => ({ g with score := g.score + 50 }, q)
    | PType.life =>
      (if g.player.lives < 3 then
          { g with player := { g.player with lives := g.player.lives + 1 } }
        else g, q)
    | PType.jumpBoost =>
      ({ g with player := { g.player with jumpBoost := 300 } }, q)
  else (g, q)

/-- The whole `powerUps.forEach` (lines 771-860). -/
def stepPowerUps (speed : ℚ) : Game → List PowerUp → Game × List PowerUp
  | g, [] => (g, [])
  | g, q :: rest =>
    let r := processPowerUp speed g q
    let s := stepPowerUps speed r.1 rest
    (s.1, r.2 :: s.2)

/-- Background scroll (lines 363-366), shared by the title and playing
branches of `gameLoop`. -/
def updateBackground (cw : ℚ) (g : Game) : Game :=
  let bg := g.backgroundOffset + 1/2
  { g with backgroundOffset := if bg > cw then 0 else bg }

/-- Gravity integration and ground clamp (lines 527-538):
`GRAVITY = 0.6`, ground line at `canvas.height - 20`; landing zeroes the
velocity and resets the jump count — the only place it resets. -/
def updatePhysics (ch : ℚ) (g : Game) : Game :=
  let p := g.player
  let p := { p with vy := p.vy + 3/5 }
  let p := { p with y := p.y + p.vy }
  let groundY := ch - 20 - p.radius
  let p :=
    if p.y > groundY then
      { p with y := groundY, vy := 0, isJumping := false, jumpCount := 0 }
    else p
  { g with player := p }

/-- `currentSpeed` (lines 580-587): `BASE_SPEED = 3`,
`SPEED_INCREASE_RATE = 0.08`, capped at `MAX_SPEED_MULTIPLIER = 2.5` times
base; `speedMultiplier` is the constant 1. -/
def currentSpeed (score : ℤ) : ℚ :=
  min (3 * (1 + ((Int.fdiv score 100 : ℤ) : ℚ) * (2/25))) (3 * (5/2))

/-- Level derivation (line 590): `floor(score / 100) + 1`. -/
def setLevel (g : Game) : Game :=
  { g with level := Int.fdiv g.score 100 + 1 }

/-- Runs the obstacle loop and writes back the rebuilt obstacle list. -/
def runObstacles (ch speed : ℚ) (rolls : ℕ → ℚ) (g : Game) : Game :=
  let r := stepObstacles ch speed rolls 0 g g.obstacles
  { r.1 with obstacles := r.2 }

/-- Runs the power-up loop and writes back the rebuilt power-up list. -/
def runPowerUps (speed : ℚ) (g : Game) : Game :=
  let r := stepPowerUps speed g g.powerUps
  { r.1 with powerUps := r.2 }

/-- Off-screen pruning (lines 883-888): obstacles survive while
`x > -OBSTACLE.WIDTH`; power-ups while `x > -30` and not collected. -/
def pruneOffscreen (g : Game) : Game :=
  { g with
      obstacles := g.obstacles.filter (fun o => o.x > -30)
      powerUps := g.powerUps.filter (fun q => q.x > -30 ∧ q.collected = false) }

/-- The spawn threshold of line 894:
`SPAWN_INTERVAL - Math.floor(level * 2)` with `SPAWN_INTERVAL = 70` (the
floor is the identity on the integral level). -/
def spawnThreshold (level : ℤ) : ℤ :=
  70 - level * 2

/-- Obstacle spawning (lines 891-898): the frame counter increments, and when
it exceeds `spawnThreshold level` an obstacle is pushed at the right edge and
the counter resets. -/
def runSpawn (cw : ℚ) (colorRand typeRand : ℚ) (g : Game) : Game :=
  let t := g.timers.spawn + 1
  if (t : ℤ) > spawnThreshold g.level then
    { g with
        obstacles := g.obstacles ++ [spawnedObstacle cw colorRand typeRand]
        timers := { g.timers with spawn := 0 } }
  else { g with timers := { g.timers with spawn := t } }

/-- Power-up spawning (lines 901-908): counter must exceed 200 AND the
`SPAWN_CHANCE = 0.15` roll must succeed; the counter resets only on a spawn. -/
def runPowerUpSpawn (cw : ℚ) (spawnRand lifeRand typeRand : ℚ) (g : Game) : Game :=
  let t := g.timers.powerUpSpawn + 1
  if (t : ℤ) > 200 ∧ spawnRand < 3/20 then
    { g with
        powerUps := g.powerUps ++ [spawnedPowerUp cw lifeRand typeRand]
        timers := { g.timers with powerUpSpawn := 0 } }
  else { g with timers := { g.timers with powerUpSpawn := t } }

/-- Pending player-color change application (lines 911-920): pick uniformly
from the palette minus the player's current color, then clear the flag. -/
def applyColorChange (r : ℚ) (g : Game) : Game :=
  if g.colorChangeOnNextObstacle = true then
    let availableColors := COLORS.filter (fun c => c ≠ g.player.color)
    let newColor := availableColors.getD (jsFloorMul r availableColors.length) "#ff4757"
    { g with
        player := { g.player with color := newColor }
        colorChangeOnNextObstacle := false }
  else g

/-- Power-up / invincibility timer decay (lines 923-925). -/
def decTimers (g : Game) : Game :=
  let p := g.player
  let p := if p.shield > 0 then { p with shield := p.shield - 1 } else p
  let p := if p.jumpBoost > 0 then { p with jumpBoost := p.jumpBoost - 1 } else p
  let p := if p.invincible > 0 then { p with invincible := p.invincible - 1 } else p
  { g with player := p }

/-- Combo timer decay (lines 927-932): while positive it counts down;
otherwise the combo count is zeroed (the timer itself is left alone). -/
def decCombo (g : Game) : Game :=
  if g.comboTimer > 0 then { g with comboTimer := g.comboTimer - 1 }
  else { g with combo := 0 }

/-- The `Math.random()` draws one `gameLoop` invocation may consume.
`rollRand i` feeds the line-760 roll of the obstacle at position `i`;
the particle randoms are elided with the particles themselves. -/
structure TickOracle where
  rollRand : ℕ → ℚ
  spawnColorRand : ℚ
  spawnTypeRand : ℚ
  puSpawnRand : ℚ
  puLifeRand : ℚ
  puTypeRand : ℚ
  newColorRand : ℚ

/-- `Math.random()` always lies in `[0, 1)`. -/
def TickOracle.Valid (or : TickOracle) : Prop :=
  (∀ i, 0 ≤ or.rollRand i ∧ or.rollRand i < 1) ∧
  (0 ≤ or.spawnColorRand ∧ or.spawnColorRand < 1) ∧
  (0 ≤ or.spawnTypeRand ∧ or.spawnTypeRand < 1) ∧
  (0 ≤ or.puSpawnRand ∧ or.puSpawnRand < 1) ∧
  (0 ≤ or.puLifeRand ∧ or.puLifeRand < 1) ∧
  (0 ≤ or.puTypeRand ∧ or.puTypeRand < 1) ∧
  (0 ≤ or.newColorRand ∧ or.newColorRand < 1)

/-- One `gameLoop` invocation (lines 351-986) on a canvas of logical size
`cw × ch`, with all drawing elided.  Before the game starts only the
background scrolls (lines 363-366, 450-523).  Afterwards: physics, speed and
level derivation, the obstacle loop, the power-up loop, pruning, spawning,
pending color change, timer decay, and combo decay — in source order.
The game-over `return` inside the obstacle `forEach` callback exits only that
callback, so the remainder of the tick still runs on the game-over frame;
no further frame is scheduled once `isGameOver` is set (line 984), which the
reachability relation reflects. -/
def tick (cw ch : ℚ) (or : TickOracle) (g : Game) : Game :=
  let g := updateBackground cw g
  if g.gameStarted = false then g
  else
    let g := updatePhysics ch g
    let speed := currentSpeed g.score
    let g := setLevel g
    let g := runObstacles ch speed or.rollRand g
    let g := runPowerUps speed g
    let g := pruneOffscreen g
    let g := runSpawn cw or.spawnColorRand or.spawnTypeRand g
    let g := runPowerUpSpawn cw or.puSpawnRand or.puLifeRand or.puTypeRand g
    let g := applyColorChange or.newColorRand g
    let g := decTimers g
    decCombo g

/-- States reachable by the session: the initial state for any persisted best
score, a jump trigger at any time, one simulation tick per frame while not in
game over (once `isGameOver` holds no further frame is scheduled), and the
post-game-over reset, which rebuilds the initial state around the persisted
store. -/
inductive Reachable : Game → Prop
  | init (store : ℤ) : Reachable (initialGame store)
  | jump {g : Game} : Reachable g → Reachable (handleJump g)
  | tick {g : Game} (cw ch : ℚ) (or : TickOracle) :
      Reachable g → or.Valid → g.isGameOver = false → Reachable (tick cw ch or g)
  | reset {g : Game} : Reachable g → g.isGameOver = true → Reachable (initialGame g.store)


/-! ## Helper lemmas -/

/-- A collision with `hit = true` implies horizontal overlap: the first branch
of `checkCollision` would otherwise have returned `hit = false`. -/
lemma checkCollision_overlap_of_hit {p : Player} {o : Obstacle} {ch : ℚ}
    (h : (checkCollision p o ch).hit = true) :
    o.x < p.x + p.radius ∧ o.x + 30 > p.x - p.radius := by
  unfold checkCollision at h
  split_ifs at h with h1 h2 h3
  all_goals simp_all [xOverlap]

/-- The color-shuffle block is a no-op when the obstacle has not fully cleared
behind the player. -/
lemma colorShufflePhase_skip {g : Game} {o : Obstacle} {r : ℚ}
    (h : ¬ o.x + 30 < g.player.x - g.player.radius - 10) :
    colorShufflePhase r g o = (g, o) := by
  unfold colorShufflePhase
  rw [if_neg]
  intro hc
  exact h hc.2.1

/-! ## Claim C6 -/

/-- Claim C6: collision classification follows the source's case order: no
x-overlap yields `pass` with no hit; with x-overlap, a lower edge at or above
the obstacle top plus the 5-pixel tolerance yields `jump` with no hit — and
this clearance check precedes the through-body band check, so such a player is
never classified as colliding even when the disc intersects the band; only
otherwise does a band intersection yield `pass` with `hit = true`. -/
theorem C6_collision_case_order (p : Player) (o : Obstacle) (ch : ℚ) :
    (¬ xOverlap p o → checkCollision p o ch = { hit := false, ctype := CType.pass }) ∧
    (xOverlap p o → p.y + p.radius ≤ obstacleTop ch o.type + 5 →
      checkCollision p o ch = { hit := false, ctype := CType.jump }) ∧
    (xOverlap p o → ¬ p.y + p.radius ≤ obstacleTop ch o.type + 5 →
      p.y + p.radius > obstacleTop ch o.type ∧ p.y - p.radius < obstacleBottom ch →
      checkCollision p o ch = { hit := true, ctype := CType.pass }) := by
  refine ⟨fun h1 => ?_, fun h1 h2 => ?_, fun h1 h2 h3 => ?_⟩
  all_goals unfold checkCollision
  all_goals split_ifs
  all_goals simp_all

/-- Witness for C6: a concrete overlapping, clearing player whose disc does
intersect the obstacle band is still classified `jump` with no hit. -/
theorem C6_collision_case_order_witness :
    xOverlap
        { x := 100, y := 502, radius := 20, vy := 0, color := "#ff4757",
          isJumping := true, jumpCount := 1, shield := 0, jumpBoost := 0,
          lives := 3, invincible := 0 }
        { x := 95, color := "#2ed573", passed := false, type := OType.normal,
          colorChanged := false } ∧
    (502 : ℚ) + 20 > obstacleTop 600 OType.normal ∧
    checkCollision
        { x := 100, y := 502, radius := 20, vy := 0, color := "#ff4757",
          isJumping := true, jumpCount := 1, shield := 0, jumpBoost := 0,
          lives := 3, invincible := 0 }
        { x := 95, color := "#2ed573", passed := false, type := OType.normal,
          colorChanged := false } 600 =
      { hit := false, ctype := CType.jump } := by
  refine ⟨by decide, by decide, ?_⟩
  exact (C6_collision_case_order _ _ _).2.1 (by decide) (by decide)

/-! ## Claim C2 -/

/-- Claim C2: in a tick where a not-yet-passed obstacle registers a
pass-through hit (x-overlap with the player's vertical span in the obstacle
band, i.e. `checkCollision` on the moved obstacle returns a hit of kind
`pass`) and the obstacle's color equals the player's, the score grows by
exactly the base (10 normal / 15 tall / 20 bonus) plus `floor(combo/5) * 5`,
the combo increments, the combo timer resets to `COMBO_TIMEOUT = 600`, and
the obstacle's `passed` flag is set. -/
theorem C2_same_color_pass_scoring
    (ch speed roll : ℚ) (g : Game) (o : Obstacle)
    (hcol : checkCollision g.player { o with x := o.x - speed } ch =
      { hit := true, ctype := CType.pass })
    (hsame : g.player.color = o.color)
    (hnew : o.passed = false) :
    (processObstacle ch speed roll g o).1.score =
      g.score + ((if o.type = OType.bonus then 20
        else if o.type = OType.tall then 15 else 10) + ((g.combo / 5 : ℕ) * 5 : ℕ)) ∧
    (processObstacle ch speed roll g o).1.combo = g.combo + 1 ∧
    (processObstacle ch speed roll g o).1.comboTimer = 600 ∧
    (processObstacle ch speed roll g o).2.passed = true := by
  have hhit : (checkCollision g.player { o with x := o.x - speed } ch).hit = true := by
    rw [hcol]
  have hover := checkCollision_overlap_of_hit hhit
  have hskip : ¬ (o.x - speed + 30 < g.player.x - g.player.radius - 10) := by
    have := hover.2
    simp only at this
    intro hlt
    linarith
  unfold processObstacle collisionPhase
  dsimp only
  rw [hcol]
  have hc1 : ({ hit := true, ctype := CType.pass } : CollisionResult).hit = true ∧
      ({ hit := true, ctype := CType.pass } : CollisionResult).ctype = CType.pass ∧
      g.player.color = o.color := ⟨rfl, rfl, hsame⟩
  rw [if_pos hc1, if_pos hnew]
  dsimp only
  rw [colorShufflePhase_skip (by simpa using hskip)]
  refine ⟨?_, rfl, rfl, rfl⟩
  push_cast
  ring

/-- Shared concrete fixture: a grounded player in the initial configuration. -/
def basePlayer : Player :=
  { x := 100, y := 560, radius := 20, vy := 0, color := "#ff4757",
    isJumping := false, jumpCount := 0, shield := 0, jumpBoost := 0,
    lives := 3, invincible := 0 }

/-- Shared concrete fixture: a running game around `basePlayer`. -/
def baseGame : Game :=
  { initialGame 0 with gameStarted := true, player := basePlayer }

/-- Shared concrete fixture: an obstacle that, moved once at base speed 3,
overlaps `basePlayer` through the body band. -/
def hitObstacle : Obstacle :=
  { x := 103, color := "#ff4757", passed := false, type := OType.normal,
    colorChanged := false }

/-- Witness for C2 at a combo of 7: base 10 plus `floor(7/5)*5 = 5`. -/
theorem C2_same_color_pass_scoring_witness :
    (processObstacle 600 3 0 { baseGame with combo := 7 } hitObstacle).1.score = 15 ∧
    (processObstacle 600 3 0 { baseGame with combo := 7 } hitObstacle).1.combo = 8 ∧
    (processObstacle 600 3 0 { baseGame with combo := 7 } hitObstacle).1.comboTimer = 600 ∧
    (processObstacle 600 3 0 { baseGame with combo := 7 } hitObstacle).2.passed = true := by
  have h := C2_same_color_pass_scoring 600 3 0 { baseGame with combo := 7 }
    hitObstacle (by decide) (by decide) (by decide)
  exact ⟨h.1.trans (by decide), h.2.1.trans (by decide), h.2.2.1, h.2.2.2⟩

/-! ## Claim C3 -/

/-- Claim C3: a pass-through hit on a different-color obstacle while the
shield timer is positive and invincibility inactive consumes the shield
(reset to 0), leaves lives unchanged, zeroes combo and combo timer, and — when
the obstacle was not yet passed — awards exactly 1 point and marks it passed. -/
theorem C3_shielded_pass
    (ch speed roll : ℚ) (g : Game) (o : Obstacle)
    (hcol : checkCollision g.player { o with x := o.x - speed } ch =
      { hit := true, ctype := CType.pass })
    (hdiff : g.player.color ≠ o.color)
    (hshield : g.player.shield > 0)
    (hinv : g.player.invincible ≤ 0) :
    (processObstacle ch speed roll g o).1.player.shield = 0 ∧
    (processObstacle ch speed roll g o).1.player.lives = g.player.lives ∧
    (processObstacle ch speed roll g o).1.combo = 0 ∧
    (processObstacle ch speed roll g o).1.comboTimer = 0 ∧
    (o.passed = false →
      (processObstacle ch speed roll g o).1.score = g.score + 1 ∧
      (processObstacle ch speed roll g o).2.passed = true) := by
  have hhit : (checkCollision g.player { o with x := o.x - speed } ch).hit = true := by
    rw [hcol]
  have hover := checkCollision_overlap_of_hit hhit
  have hskip : ¬ (o.x - speed + 30 < g.player.x - g.player.radius - 10) := by
    have := hover.2
    simp only at this
    intro hlt
    linarith
  unfold processObstacle collisionPhase
  dsimp only
  rw [hcol]
  have hc1 : ¬ (({ hit := true, ctype := CType.pass } : CollisionResult).hit = true ∧
      ({ hit := true, ctype := CType.pass } : CollisionResult).ctype = CType.pass ∧
      g.player.color = o.color) := by
    intro hc
    exact hdiff hc.2.2
  have hc2 : ({ hit := true, ctype := CType.pass } : CollisionResult).hit = true ∧
      ({ hit := true, ctype := CType.pass } : CollisionResult).ctype = CType.pass ∧
      g.player.color ≠ o.color := ⟨rfl, rfl, hdiff⟩
  rw [if_neg hc1, if_pos hc2, if_pos hinv, if_pos hshield]
  by_cases hp : o.passed = false
  · rw [if_pos hp]
    dsimp only
    rw [colorShufflePhase_skip (by simpa using hskip)]
    exact ⟨rfl, rfl, rfl, rfl, fun _ => ⟨rfl, rfl⟩⟩
  · rw [if_neg hp]
    dsimp only
    rw [colorShufflePhase_skip (by simpa using hskip)]
    exact ⟨rfl, rfl, rfl, rfl, fun h => absurd h hp⟩

/-- Witness for C3: shielded player at shield 120, combo 4, hit by a
different-color obstacle. -/
theorem C3_shielded_pass_witness :
    (processObstacle 600 3 0
        { baseGame with
          combo := 4
          comboTimer := 300
          player := { basePlayer with shield := 120 } }
        { hitObstacle with color := "#2ed573" }).1.player.shield = 0 ∧
    (processObstacle 600 3 0
        { baseGame with
          combo := 4
          comboTimer := 300
          player := { basePlayer with shield := 120 } }
        { hitObstacle with color := "#2ed573" }).1.player.lives = 3 ∧
    (processObstacle 600 3 0
        { baseGame with
          combo := 4
          comboTimer := 300
          player := { basePlayer with shield := 120 } }
        { hitObstacle with color := "#2ed573" }).1.combo = 0 ∧
    (processObstacle 600 3 0
        { baseGame with
          combo := 4
          comboTimer := 300
          player := { basePlayer with shield := 120 } }
        { hitObstacle with color := "#2ed573" }).1.comboTimer = 0 ∧
    (processObstacle 600 3 0
        { baseGame with
          combo := 4
          comboTimer := 300
          player := { basePlayer with shield := 120 } }
        { hitObstacle with color := "#2ed573" }).1.score = 1 ∧
    (processObstacle 600 3 0
        { baseGame with
          combo := 4
          comboTimer := 300
          player := { basePlayer with shield := 120 } }
        { hitObstacle with color := "#2ed573" }).2.passed = true := by
  have h := C3_shielded_pass 600 3 0
    { baseGame with
      combo := 4
      comboTimer := 300
      player := { basePlayer with shield := 120 } }
    { hitObstacle with color := "#2ed573" }
    (by decide) (by decide) (by decide) (by decide)
  have h5 := h.2.2.2.2 (by decide)
  exact ⟨h.1, h.2.1.trans (by decide), h.2.2.1, h.2.2.2.1,
    h5.1.trans (by decide), h5.2⟩

/-! ## Claim C4 -/

/-- Claim C4: a pass-through hit on a different-color obstacle at exactly one
life, with no shield and no invincibility, drops lives to 0, sets the
game-over phase, and updates both the in-state best score and the persisted
store exactly when the current score exceeds the previous best. -/
theorem C4_lethal_hit
    (ch speed roll : ℚ) (g : Game) (o : Obstacle)
    (hcol : checkCollision g.player { o with x := o.x - speed } ch =
      { hit := true, ctype := CType.pass })
    (hdiff : g.player.color ≠ o.color)
    (hone : g.player.lives = 1)
    (hshield : ¬ g.player.shield > 0)
    (hinv : g.player.invincible ≤ 0) :
    (processObstacle ch speed roll g o).1.player.lives = 0 ∧
    (processObstacle ch speed roll g o).1.isGameOver = true ∧
    (g.score > g.bestScore →
      (processObstacle ch speed roll g o).1.bestScore = g.score ∧
      (processObstacle ch speed roll g o).1.store = g.score) ∧
    (¬ g.score > g.bestScore →
      (processObstacle ch speed roll g o).1.bestScore = g.bestScore ∧
      (processObstacle ch speed roll g o).1.store = g.store) := by
  unfold processObstacle collisionPhase
  dsimp only
  rw [hcol]
  have hc1 : ¬ (({ hit := true, ctype := CType.pass } : CollisionResult).hit = true ∧
      ({ hit := true, ctype := CType.pass } : CollisionResult).ctype = CType.pass ∧
      g.player.color = o.color) := by
    intro hc
    exact hdiff hc.2.2
  have hc2 : ({ hit := true, ctype := CType.pass } : CollisionResult).hit = true ∧
      ({ hit := true, ctype := CType.pass } : CollisionResult).ctype = CType.pass ∧
      g.player.color ≠ o.color := ⟨rfl, rfl, hdiff⟩
  rw [if_neg hc1, if_pos hc2, if_pos hinv, if_neg hshield]
  have hdead : g.player.lives - 1 ≤ 0 := by omega
  rw [if_pos hdead]
  by_cases hbs : g.score > g.bestScore
  · rw [if_pos hbs]
    dsimp only
    exact ⟨by omega, rfl, fun _ => ⟨rfl, rfl⟩, fun h => absurd hbs h⟩
  · rw [if_neg hbs]
    dsimp only
    exact ⟨by omega, rfl, fun h => absurd h hbs, fun _ => ⟨rfl, rfl⟩⟩

/-- Witness for C4: one life, no shield, score 42 against best 10 — game over
with best and store updated to 42. -/
theorem C4_lethal_hit_witness :
    (processObstacle 600 3 0
        { baseGame with
          score := 42
          bestScore := 10
          player := { basePlayer with lives := 1 } }
        { hitObstacle with color := "#2ed573" }).1.player.lives = 0 ∧
    (processObstacle 600 3 0
        { baseGame with
          score := 42
          bestScore := 10
          player := { basePlayer with lives := 1 } }
        { hitObstacle with color := "#2ed573" }).1.isGameOver = true ∧
    (processObstacle 600 3 0
        { baseGame with
          score := 42
          bestScore := 10
          player := { basePlayer with lives := 1 } }
        { hitObstacle with color := "#2ed573" }).1.bestScore = 42 ∧
    (processObstacle 600 3 0
        { baseGame with
          score := 42
          bestScore := 10
          player := { basePlayer with lives := 1 } }
        { hitObstacle with color := "#2ed573" }).1.store = 42 := by
  have h := C4_lethal_hit 600 3 0
    { baseGame with
      score := 42
      bestScore := 10
      player := { basePlayer with lives := 1 } }
    { hitObstacle with color := "#2ed573" }
    (by decide) (by decide) (by decide) (by decide) (by decide)
  have h3 := h.2.2.1 (by decide)
  exact ⟨h.1, h.2.1, h3.1, h3.2⟩

/-! ## Claim C10 -/

/-- Claim C10: while the invincibility timer is positive, a pass-through hit
on a different-color obstacle changes nothing: the game state is returned
untouched (lives, shield, combo, combo timer, score, pending flag, best
score), and the obstacle keeps all its fields — in particular `passed` stays
false if it was false, leaving it eligible for later scoring — except for the
unconditional leftward movement. -/
theorem C10_invincible_noop
    (ch speed roll : ℚ) (g : Game) (o : Obstacle)
    (hcol : checkCollision g.player { o with x := o.x - speed } ch =
      { hit := true, ctype := CType.pass })
    (hdiff : g.player.color ≠ o.color)
    (hinv : g.player.invincible > 0) :
    (processObstacle ch speed roll g o).1 = g ∧
    (processObstacle ch speed roll g o).2 = { o with x := o.x - speed } := by
  have hhit : (checkCollision g.player { o with x := o.x - speed } ch).hit = true := by
    rw [hcol]
  have hover := checkCollision_overlap_of_hit hhit
  have hskip : ¬ (o.x - speed + 30 < g.player.x - g.player.radius - 10) := by
    have := hover.2
    simp only at this
    intro hlt
    linarith
  unfold processObstacle collisionPhase
  dsimp only
  rw [hcol]
  have hc1 : ¬ (({ hit := true, ctype := CType.pass } : CollisionResult).hit = true ∧
      ({ hit := true, ctype := CType.pass } : CollisionResult).ctype = CType.pass ∧
      g.player.color = o.color) := by
    intro hc
    exact hdiff hc.2.2
  have hc2 : ({ hit := true, ctype := CType.pass } : CollisionResult).hit = true ∧
      ({ hit := true, ctype := CType.pass } : CollisionResult).ctype = CType.pass ∧
      g.player.color ≠ o.color := ⟨rfl, rfl, hdiff⟩
  have hni : ¬ g.player.invincible ≤ 0 := by omega
  rw [if_neg hc1, if_pos hc2, if_neg hni]
  dsimp only
  rw [colorShufflePhase_skip (by simpa using hskip)]
  exact ⟨rfl, rfl⟩

/-- Witness for C10: a freshly-damaged player (invincible 120) passes through
a different-color obstacle completely unaffected. -/
theorem C10_invincible_noop_witness :
    (processObstacle 600 3 0
        { baseGame with player := { basePlayer with invincible := 120, lives := 2 } }
        { hitObstacle with color := "#2ed573" }).1 =
      { baseGame with player := { basePlayer with invincible := 120, lives := 2 } } ∧
    (processObstacle 600 3 0
        { baseGame with player := { basePlayer with invincible := 120, lives := 2 } }
        { hitObstacle with color := "#2ed573" }).2 =
      { hitObstacle with color := "#2ed573", x := 100 } := by
  have h := C10_invincible_noop 600 3 0
    { baseGame with player := { basePlayer with invincible := 120, lives := 2 } }
    { hitObstacle with color := "#2ed573" }
    (by decide) (by decide) (by decide)
  exact ⟨h.1, h.2.trans (by decide)⟩

/-! ## Claim C5 -/

/-- The collision block preserves a set `passed` flag, leaves the score alone
on already-passed obstacles, and any score change marks a previously unpassed
obstacle as passed. -/
lemma collisionPhase_passed_latch (ch speed : ℚ) (g : Game) (o : Obstacle) :
    (o.passed = true → (collisionPhase ch speed g o).2.1.passed = true ∧
      (collisionPhase ch speed g o).1.score = g.score) ∧
    ((collisionPhase ch speed g o).1.score ≠ g.score →
      o.passed = false ∧ (collisionPhase ch speed g o).2.1.passed = true) := by
  unfold collisionPhase
  dsimp only
  split_ifs
  all_goals dsimp only
  all_goals constructor
  all_goals intro h
  all_goals simp_all

/-- The color-shuffle block never changes the score or the `passed` flag. -/
lemma colorShufflePhase_passed_latch (r : ℚ) (g : Game) (o : Obstacle) :
    (colorShufflePhase r g o).1.score = g.score ∧
    (colorShufflePhase r g o).2.passed = o.passed := by
  unfold colorShufflePhase
  split_ifs
  all_goals simp_all

/-- Claim C5: per processed obstacle per tick, `passed` is a one-way latch —
once true it stays true and the obstacle no longer changes the score — and
conversely any score change made while processing an obstacle happens on a
not-yet-passed obstacle and sets its flag.  Since every tick processes each
live obstacle exactly once through this function, and pruning/spawning never
touch `passed`, each obstacle contributes a score award at most once across
its lifetime. -/
theorem C5_passed_latch (ch speed roll : ℚ) (g : Game) (o : Obstacle) :
    (o.passed = true → (processObstacle ch speed roll g o).2.passed = true ∧
      (processObstacle ch speed roll g o).1.score = g.score) ∧
    ((processObstacle ch speed roll g o).1.score ≠ g.score →
      o.passed = false ∧ (processObstacle ch speed roll g o).2.passed = true) := by
  have hc := collisionPhase_passed_latch ch speed g o
  unfold processObstacle
  rcases hcp : collisionPhase ch speed g o with ⟨g1, o1, b⟩
  rw [hcp] at hc
  dsimp only at hc
  cases b
  · dsimp only
    have hs := colorShufflePhase_passed_latch roll g1 o1
    constructor
    · intro hp
      obtain ⟨hpass, hscore⟩ := hc.1 hp
      rw [hs.1, hs.2]
      exact ⟨hpass, hscore⟩
    · intro hne
      rw [hs.1] at hne
      obtain ⟨hold, hpass⟩ := hc.2 hne
      rw [hs.2]
      exact ⟨hold, hpass⟩
  · dsimp only
    exact hc

/-- Witness for C5: an already-passed obstacle that is hit again leaves both
its flag and the score untouched. -/
theorem C5_passed_latch_witness :
    (processObstacle 600 3 0 baseGame { hitObstacle with passed := true }).2.passed = true ∧
    (processObstacle 600 3 0 baseGame { hitObstacle with passed := true }).1.score =
      baseGame.score := by
  exact (C5_passed_latch 600 3 0 baseGame { hitObstacle with passed := true }).1 (by decide)

/-! ## Claim C9 -/

/-- Within the collision block, the combo is zeroed exactly by a damage event
— a pass-through hit on a different-color obstacle with invincibility
inactive, shielded or not — and is otherwise only kept or incremented. -/
lemma collisionPhase_combo (ch speed : ℚ) (g : Game) (o : Obstacle) :
    (((checkCollision g.player { o with x := o.x - speed } ch).hit = true ∧
      (checkCollision g.player { o with x := o.x - speed } ch).ctype = CType.pass ∧
      g.player.color ≠ o.color ∧ g.player.invincible ≤ 0) →
      (collisionPhase ch speed g o).1.combo = 0 ∧
      (collisionPhase ch speed g o).1.comboTimer = 0) ∧
    (g.combo ≠ 0 → (collisionPhase ch speed g o).1.combo = 0 →
      ((checkCollision g.player { o with x := o.x - speed } ch).hit = true ∧
      (checkCollision g.player { o with x := o.x - speed } ch).ctype = CType.pass ∧
      g.player.color ≠ o.color ∧ g.player.invincible ≤ 0)) := by
  unfold collisionPhase
  dsimp only
  split_ifs
  all_goals dsimp only
  all_goals constructor
  all_goals intro h
  all_goals simp_all

/-- The color-shuffle block touches neither the combo nor its timer. -/
lemma colorShufflePhase_combo (r : ℚ) (g : Game) (o : Obstacle) :
    (colorShufflePhase r g o).1.combo = g.combo ∧
    (colorShufflePhase r g o).1.comboTimer = g.comboTimer := by
  unfold colorShufflePhase
  split_ifs
  all_goals simp_all

/-- Claim C9: the combo count is set to 0 exactly by (a) the end-of-tick
decay when the combo timer has run out (a qualifying pass in the tick resets
the timer to 600, so decay cannot zero a freshly extended combo), or (b) a
damage event — a shielded or unshielded different-color pass-through hit with
invincibility inactive — and never otherwise: obstacle processing without a
damage event only keeps or increments the combo (jump-over scoring included),
and power-up collection and player color changes never touch it. -/
theorem C9_combo_reset_exactly (ch speed roll r rc : ℚ) (g : Game) (o : Obstacle)
    (q : PowerUp) :
    (((checkCollision g.player { o with x := o.x - speed } ch).hit = true ∧
      (checkCollision g.player { o with x := o.x - speed } ch).ctype = CType.pass ∧
      g.player.color ≠ o.color ∧ g.player.invincible ≤ 0) →
      (processObstacle ch speed roll g o).1.combo = 0 ∧
      (processObstacle ch speed roll g o).1.comboTimer = 0) ∧
    (g.combo ≠ 0 → (processObstacle ch speed roll g o).1.combo = 0 →
      ((checkCollision g.player { o with x := o.x - speed } ch).hit = true ∧
      (checkCollision g.player { o with x := o.x - speed } ch).ctype = CType.pass ∧
      g.player.color ≠ o.color ∧ g.player.invincible ≤ 0)) ∧
    (processPowerUp r g q).1.combo = g.combo ∧
    (applyColorChange rc g).combo = g.combo ∧
    (g.comboTimer ≤ 0 → (decCombo g).combo = 0) ∧
    (0 < g.comboTimer → (decCombo g).combo = g.combo ∧
      (decCombo g).comboTimer = g.comboTimer - 1) := by
  have hc := collisionPhase_combo ch speed g o
  refine ⟨?_, ?_, ?_, ?_, ?_, ?_⟩
  · intro hdmg
    have h1 := hc.1 hdmg
    unfold processObstacle
    rcases hcp : collisionPhase ch speed g o with ⟨g1, o1, b⟩
    rw [hcp] at h1
    dsimp only at h1
    cases b
    · dsimp only
      have hs := colorShufflePhase_combo roll g1 o1
      rw [hs.1, hs.2]
      exact h1
    · exact h1
  · intro hcne hzero
    unfold processObstacle at hzero
    revert hzero
    rcases hcp : collisionPhase ch speed g o with ⟨g1, o1, b⟩
    have hc2 := hc.2 hcne
    rw [hcp] at hc2
    dsimp only at hc2
    cases b
    · dsimp only
      have hs := colorShufflePhase_combo roll g1 o1
      rw [hs.1]
      exact hc2
    · exact hc2
  · rcases q with ⟨qx, qy, qt, qc⟩
    unfold processPowerUp
    dsimp only
    split_ifs
    all_goals cases qt
    all_goals rfl
  · unfold applyColorChange
    split_ifs
    all_goals rfl
  · intro h
    unfold decCombo
    rw [if_neg (by omega)]
  · intro h
    unfold decCombo
    rw [if_pos h]
    exact ⟨rfl, rfl⟩

/-- Shared concrete fixture: the deterministic oracle used by concrete runs —
every raw draw is 0 except the type draw (1/2, a normal obstacle) and the
spawn-chance draws (1/2, so no power-up spawns). -/
def oracle0 : TickOracle :=
  { rollRand := fun _ => 0
    spawnColorRand := 0
    spawnTypeRand := 1/2
    puSpawnRand := 1/2
    puLifeRand := 1/2
    puTypeRand := 0
    newColorRand := 0 }

/-- `oracle0` draws lie in `[0, 1)`. -/
lemma oracle0_valid : oracle0.Valid := by
  refine ⟨fun i => ⟨le_refl 0, by norm_num [oracle0]⟩, ?_, ?_, ?_, ?_, ?_, ?_⟩
  all_goals constructor
  all_goals norm_num [oracle0]

/-- Witness for C9: combo 3 and timer 100; a damage hit zeroes both, power-up
processing and a color change leave the combo at 3, and end-of-tick decay
keeps it while the timer is positive. -/
theorem C9_combo_reset_exactly_witness :
    (processObstacle 600 3 0 { baseGame with combo := 3, comboTimer := 100 }
      { hitObstacle with color := "#2ed573" }).1.combo = 0 ∧
    (processObstacle 600 3 0 { baseGame with combo := 3, comboTimer := 100 }
      { hitObstacle with color := "#2ed573" }).1.comboTimer = 0 ∧
    (processPowerUp 3 { baseGame with combo := 3, comboTimer := 100 }
      { x := 300, y := 350, type := PType.bonus, collected := false }).1.combo = 3 ∧
    (applyColorChange 0 { baseGame with combo := 3, comboTimer := 100 }).combo = 3 ∧
    (decCombo { baseGame with combo := 3, comboTimer := 100 }).combo = 3 := by
  have h := C9_combo_reset_exactly 600 3 0 3 0
    { baseGame with combo := 3, comboTimer := 100 }
    { hitObstacle with color := "#2ed573" }
    { x := 300, y := 350, type := PType.bonus, collected := false }
  have h1 := h.1 (by decide)
  exact ⟨h1.1, h1.2, h.2.2.1.trans (by decide), h.2.2.2.1.trans (by decide),
    (h.2.2.2.2.2 (by decide)).1.trans (by decide)⟩

/-! ## Frame lemmas for the tick pipeline -/

lemma updateBackground_frame (cw : ℚ) (g : Game) :
    (updateBackground cw g).gameStarted = g.gameStarted ∧
    (updateBackground cw g).timers = g.timers ∧
    (updateBackground cw g).score = g.score ∧
    (updateBackground cw g).player = g.player := by
  unfold updateBackground
  exact ⟨rfl, rfl, rfl, rfl⟩

lemma updatePhysics_frame (ch : ℚ) (g : Game) :
    (updatePhysics ch g).timers = g.timers ∧
    (updatePhysics ch g).score = g.score ∧
    (updatePhysics ch g).obstacles = g.obstacles := by
  unfold updatePhysics
  exact ⟨rfl, rfl, rfl⟩

lemma setLevel_frame (g : Game) :
    (setLevel g).level = Int.fdiv g.score 100 + 1 ∧
    (setLevel g).timers = g.timers ∧
    (setLevel g).obstacles = g.obstacles := by
  unfold setLevel
  exact ⟨rfl, rfl, rfl⟩

lemma collisionPhase_tlFrame (ch speed : ℚ) (g : Game) (o : Obstacle) :
    (collisionPhase ch speed g o).1.timers = g.timers ∧
    (collisionPhase ch speed g o).1.level = g.level := by
  unfold collisionPhase
  dsimp only
  split_ifs
  all_goals exact ⟨rfl, rfl⟩

lemma colorShufflePhase_tlFrame (r : ℚ) (g : Game) (o : Obstacle) :
    (colorShufflePhase r g o).1.timers = g.timers ∧
    (colorShufflePhase r g o).1.level = g.level := by
  unfold colorShufflePhase
  split_ifs
  all_goals exact ⟨rfl, rfl⟩

lemma processObstacle_tlFrame (ch speed roll : ℚ) (g : Game) (o : Obstacle) :
    (processObstacle ch speed roll g o).1.timers = g.timers ∧
    (processObstacle ch speed roll g o).1.level = g.level := by
  have hc := collisionPhase_tlFrame ch speed g o
  unfold processObstacle
  rcases hcp : collisionPhase ch speed g o with ⟨g1, o1, b⟩
  rw [hcp] at hc
  dsimp only at hc
  cases b
  · dsimp only
    have hs := colorShufflePhase_tlFrame roll g1 o1
    exact ⟨hs.1.trans hc.1, hs.2.trans hc.2⟩
  · exact hc

lemma stepObstacles_tlFrame (ch speed : ℚ) (rolls : ℕ → ℚ) (i : ℕ) (g : Game)
    (os : List Obstacle) :
    (stepObstacles ch speed rolls i g os).1.timers = g.timers ∧
    (stepObstacles ch speed rolls i g os).1.level = g.level := by
  induction os generalizing i g with
  | nil => exact ⟨rfl, rfl⟩
  | cons o rest ih =>
    unfold stepObstacles
    dsimp only
    have hp := processObstacle_tlFrame ch speed (rolls i) g o
    have hr := ih (i + 1) (processObstacle ch speed (rolls i) g o).1
    exact ⟨hr.1.trans hp.1, hr.2.trans hp.2⟩

lemma runObstacles_tlFrame (ch speed : ℚ) (rolls : ℕ → ℚ) (g : Game) :
    (runObstacles ch speed rolls g).timers = g.timers ∧
    (runObstacles ch speed rolls g).level = g.level := by
  unfold runObstacles
  exact stepObstacles_tlFrame ch speed rolls 0 g g.obstacles

lemma processPowerUp_tloFrame (speed : ℚ) (g : Game) (q : PowerUp) :
    (processPowerUp speed g q).1.timers = g.timers ∧
    (processPowerUp speed g q).1.level = g.level ∧
    (processPowerUp speed g q).1.obstacles = g.obstacles := by
  rcases q with ⟨qx, qy, qt, qc⟩
  unfold processPowerUp
  dsimp only
  split_ifs
  all_goals cases qt
  all_goals exact ⟨rfl, rfl, rfl⟩

lemma stepPowerUps_tloFrame (speed : ℚ) (g : Game) (qs : List PowerUp) :
    (stepPowerUps speed g qs).1.timers = g.timers ∧
    (stepPowerUps speed g qs).1.level = g.level ∧
    (stepPowerUps speed g qs).1.obstacles = g.obstacles := by
  induction qs generalizing g with
  | nil => exact ⟨rfl, rfl, rfl⟩
  | cons q rest ih =>
    unfold stepPowerUps
    dsimp only
    have hp := processPowerUp_tloFrame speed g q
    have hr := ih (processPowerUp speed g q).1
    exact ⟨hr.1.trans hp.1, hr.2.1.trans hp.2.1, hr.2.2.trans hp.2.2⟩

lemma runPowerUps_tloFrame (speed : ℚ) (g : Game) :
    (runPowerUps speed g).timers = g.timers ∧
    (runPowerUps speed g).level = g.level ∧
    (runPowerUps speed g).obstacles = g.obstacles := by
  unfold runPowerUps
  exact stepPowerUps_tloFrame speed g g.powerUps

lemma pruneOffscreen_tlFrame (g : Game) :
    (pruneOffscreen g).timers = g.timers ∧
    (pruneOffscreen g).level = g.level := by
  unfold pruneOffscreen
  exact ⟨rfl, rfl⟩

lemma runSpawn_spec (cw colorRand typeRand : ℚ) (g : Game) :
    (runSpawn cw colorRand typeRand g).timers.spawn =
      (if ((g.timers.spawn + 1 : ℕ) : ℤ) > spawnThreshold g.level then 0
        else g.timers.spawn + 1) ∧
    (runSpawn cw colorRand typeRand g).obstacles =
      (if ((g.timers.spawn + 1 : ℕ) : ℤ) > spawnThreshold g.level then
        g.obstacles ++ [spawnedObstacle cw colorRand typeRand]
      else g.obstacles) := by
  unfold runSpawn
  dsimp only
  split_ifs
  all_goals exact ⟨rfl, rfl⟩

lemma runPowerUpSpawn_frame (cw sr lr tr : ℚ) (g : Game) :
    (runPowerUpSpawn cw sr lr tr g).timers.spawn = g.timers.spawn ∧
    (runPowerUpSpawn cw sr lr tr g).obstacles = g.obstacles := by
  unfold runPowerUpSpawn
  dsimp only
  split_ifs
  all_goals exact ⟨rfl, rfl⟩

lemma applyColorChange_frame (r : ℚ) (g : Game) :
    (applyColorChange r g).timers = g.timers ∧
    (applyColorChange r g).obstacles = g.obstacles := by
  unfold applyColorChange
  split_ifs
  all_goals exact ⟨rfl, rfl⟩

lemma decTimers_frame (g : Game) :
    (decTimers g).timers = g.timers ∧
    (decTimers g).obstacles = g.obstacles := by
  unfold decTimers
  exact ⟨rfl, rfl⟩

lemma decCombo_frame (g : Game) :
    (decCombo g).timers = g.timers ∧
    (decCombo g).obstacles = g.obstacles := by
  unfold decCombo
  split_ifs
  all_goals exact ⟨rfl, rfl⟩

/-! ## Claim C8 -/

/-- Claim C8 (amended): every playing tick increments the spawn counter, and
spawns exactly when the incremented counter exceeds
`spawnThreshold level = 70 - 2 * level` (level derived from the pre-tick
score), resetting the counter; the spawned obstacle sits at the right edge.
The threshold has no lower bound — the floor in the source is `Math.floor`
applied to `level * 2`, not a cadence floor — so from level 35 on the
threshold is non-positive and an obstacle spawns every tick. -/
theorem C8_spawn_cadence (cw ch : ℚ) (or : TickOracle) (g : Game)
    (hstart : g.gameStarted = true) :
    (tick cw ch or g).timers.spawn =
      (if ((g.timers.spawn + 1 : ℕ) : ℤ) > spawnThreshold (Int.fdiv g.score 100 + 1)
        then 0 else g.timers.spawn + 1) ∧
    (((g.timers.spawn + 1 : ℕ) : ℤ) > spawnThreshold (Int.fdiv g.score 100 + 1) →
      (tick cw ch or g).obstacles.getLast? =
        some (spawnedObstacle cw or.spawnColorRand or.spawnTypeRand)) := by
  unfold tick
  dsimp only
  rw [(updateBackground_frame cw g).1, hstart]
  rw [if_neg (by simp)]
  constructor
  · rw [(decCombo_frame _).1, (decTimers_frame _).1, (applyColorChange_frame _ _).1,
      (runPowerUpSpawn_frame _ _ _ _ _).1, (runSpawn_spec _ _ _ _).1,
      (pruneOffscreen_tlFrame _).1, (pruneOffscreen_tlFrame _).2,
      (runPowerUps_tloFrame _ _).1, (runPowerUps_tloFrame _ _).2.1,
      (runObstacles_tlFrame _ _ _ _).1, (runObstacles_tlFrame _ _ _ _).2,
      (setLevel_frame _).2.1, (setLevel_frame _).1,
      (updatePhysics_frame _ _).1, (updatePhysics_frame _ _).2.1,
      (updateBackground_frame _ _).2.1, (updateBackground_frame _ _).2.2.1]
  · intro hcond
    rw [(decCombo_frame _).2, (decTimers_frame _).2, (applyColorChange_frame _ _).2,
      (runPowerUpSpawn_frame _ _ _ _ _).2, (runSpawn_spec _ _ _ _).2,
      (pruneOffscreen_tlFrame _).1, (pruneOffscreen_tlFrame _).2,
      (runPowerUps_tloFrame _ _).1, (runPowerUps_tloFrame _ _).2.1,
      (runObstacles_tlFrame _ _ _ _).1, (runObstacles_tlFrame _ _ _ _).2,
      (setLevel_frame _).2.1, (setLevel_frame _).1,
      (updatePhysics_frame _ _).1, (updatePhysics_frame _ _).2.1,
      (updateBackground_frame _ _).2.1, (updateBackground_frame _ _).2.2.1]
    rw [if_pos hcond]
    exact List.getLast?_concat _

/-- Witness for C8: from the fresh running state (level 1, counter 0) the
tick leaves the counter at 1 — the threshold is 68 and no spawn happens. -/
theorem C8_spawn_cadence_witness :
    (tick 400 600 oracle0 baseGame).timers.spawn = 1 := by
  exact (C8_spawn_cadence 400 600 oracle0 baseGame (by decide)).1.trans (by decide)

/-- Counterexample for C8 as stated: the spawn threshold `70 - 2 * level` is
not bounded below — at level 40 (score 3900) it is -10 and keeps decreasing —
and the cadence does degenerate: two consecutive ticks both spawn (the counter
returns to 0 each tick and a fresh obstacle appears each tick, growing the
obstacle list from 0 to 2). -/
theorem C8_spawn_cadence_counterexample :
    spawnThreshold 40 = -10 ∧
    spawnThreshold 41 < spawnThreshold 40 ∧
    Int.fdiv (3900 : ℤ) 100 + 1 = 40 ∧
    (tick 400 600 oracle0 { baseGame with score := 3900 }).timers.spawn = 0 ∧
    (tick 400 600 oracle0 { baseGame with score := 3900 }).obstacles.length = 1 ∧
    (tick 400 600 oracle0
        (tick 400 600 oracle0 { baseGame with score := 3900 })).timers.spawn = 0 ∧
    (tick 400 600 oracle0
        (tick 400 600 oracle0 { baseGame with score := 3900 })).obstacles.length = 2 := by
  refine ⟨by decide, by decide, by decide, by decide, by decide, by decide, by decide⟩

/-! ## Claim C7 -/

/-- Without horizontal overlap `checkCollision` reports a no-hit pass. -/
lemma checkCollision_no_overlap {p : Player} {o : Obstacle} (ch : ℚ)
    (h : ¬ xOverlap p o) :
    checkCollision p o ch = { hit := false, ctype := CType.pass } := by
  unfold checkCollision
  rw [if_pos h]

/-- An obstacle that has fully cleared behind the player triggers none of the
collision branches: the collision block only moves it. -/
lemma collisionPhase_cleared (ch speed : ℚ) (g : Game) (o : Obstacle)
    (hbehind : o.x - speed + 30 < g.player.x - g.player.radius - 10) :
    collisionPhase ch speed g o = (g, { o with x := o.x - speed }, false) := by
  have hnov : ¬ xOverlap g.player { o with x := o.x - speed } := by
    intro hov
    have := hov.2
    simp only at this
    linarith
  unfold collisionPhase
  dsimp only
  rw [checkCollision_no_overlap ch hnov]
  rw [if_neg (by intro hc; cases hc.1), if_neg (by intro hc; cases hc.1),
    if_neg (by intro hc; cases hc.1)]

/-- The collision block preserves the pending-color-change flag and the
obstacle's `colorChanged` latch. -/
lemma collisionPhase_shuffleFrame (ch speed : ℚ) (g : Game) (o : Obstacle) :
    (collisionPhase ch speed g o).1.colorChangeOnNextObstacle =
      g.colorChangeOnNextObstacle ∧
    (collisionPhase ch speed g o).2.1.colorChanged = o.colorChanged := by
  unfold collisionPhase
  dsimp only
  split_ifs
  all_goals exact ⟨rfl, rfl⟩

/-- A latched obstacle (`colorChanged = true`) skips the shuffle block. -/
lemma colorShufflePhase_latched {g : Game} {o : Obstacle} (r : ℚ)
    (h : o.colorChanged = true) :
    colorShufflePhase r g o = (g, o) := by
  unfold colorShufflePhase
  rw [if_neg]
  intro hc
  rw [h] at hc
  cases hc.2.2

/-- Claim C7 (amended): once a passed obstacle has fully cleared behind the
player (by the 10-pixel buffer beyond the radius) and has not yet rolled, one
roll happens: the `colorChanged` latch is set unconditionally and the pending
player-color-change flag is raised exactly when the roll (1..10) is at most 4
AND the obstacle's color equals the player's CURRENT color — regardless of
which branch originally marked the obstacle passed (the source line 759
compares colors at clearance time, not at pass time).  A latched obstacle
never rolls again, and the pending change, once applied, draws the new player
color from the palette excluding the player's current color. -/
theorem C7_color_shuffle (ch speed roll rc : ℚ) (g : Game) (o : Obstacle) :
    (o.passed = true → o.colorChanged = false →
      o.x - speed + 30 < g.player.x - g.player.radius - 10 →
      (processObstacle ch speed roll g o).2.colorChanged = true ∧
      (processObstacle ch speed roll g o).1 =
        (if g.player.color = o.color ∧ jsRoll roll ≤ 4 then
          { g with colorChangeOnNextObstacle := true } else g)) ∧
    (o.colorChanged = true →
      (processObstacle ch speed roll g o).2.colorChanged = true ∧
      (processObstacle ch speed roll g o).1.colorChangeOnNextObstacle =
        g.colorChangeOnNextObstacle) ∧
    (g.colorChangeOnNextObstacle = true → 0 ≤ rc → rc < 1 →
      (applyColorChange rc g).player.color ≠ g.player.color ∧
      (applyColorChange rc g).player.color ∈ COLORS ∧
      (applyColorChange rc g).colorChangeOnNextObstacle = false) := by
  refine ⟨?_, ?_, ?_⟩
  · intro hp hnc hbehind
    unfold processObstacle
    rw [collisionPhase_cleared ch speed g o hbehind]
    dsimp only
    unfold colorShufflePhase
    rw [if_pos (by exact ⟨hp, by simpa using hbehind, hnc⟩)]
    dsimp only
    exact ⟨rfl, rfl⟩
  · intro hlatched
    have hf := collisionPhase_shuffleFrame ch speed g o
    unfold processObstacle
    rcases hcp : collisionPhase ch speed g o with ⟨g1, o1, b⟩
    rw [hcp] at hf
    dsimp only at hf
    cases b
    · dsimp only
      rw [colorShufflePhase_latched roll (hf.2.trans hlatched)]
      exact ⟨hf.2.trans hlatched, hf.1⟩
    · exact ⟨hf.2.trans hlatched, hf.1⟩
  · intro hp h0 h1
    unfold applyColorChange
    rw [if_pos hp]
    dsimp only
    set l := COLORS.filter (fun c => c ≠ g.player.color) with hl
    have hnil : l ≠ [] := by
      intro hn
      rw [hl] at hn
      have hall := List.filter_eq_nil_iff.mp hn
      have ha := hall "#ff4757" (by decide)
      have hb := hall "#2ed573" (by decide)
      simp only [ne_eq, decide_not, Bool.not_eq_eq_eq_not, Bool.not_true,
        decide_eq_false_iff_not, not_not] at ha hb
      have hcontra : ("#ff4757" : String) = "#2ed573" := ha.trans hb.symm
      exact absurd hcontra (by decide)
    have hlen : 0 < l.length := List.length_pos.mpr hnil
    have hidx : jsFloorMul rc l.length < l.length := by
      unfold jsFloorMul
      have hq : rc * (l.length : ℚ) < ((l.length : ℤ) : ℚ) := by
        have hpos : (0 : ℚ) < (l.length : ℚ) := by exact_mod_cast hlen
        push_cast
        nlinarith
      have hfl := Int.floor_lt.mpr hq
      omega
    have hmem : l.getD (jsFloorMul rc l.length) "#ff4757" ∈ l := by
      rw [List.getD_eq_getElem l _ hidx]
      exact List.getElem_mem hidx
    have hmem2 := hmem
    rw [hl] at hmem2
    have hprops := List.mem_filter.mp hmem2
    refine ⟨?_, ?_, rfl⟩
    · rw [hl]
      exact of_decide_eq_true hprops.2
    · rw [hl]
      exact hprops.1

/-- Witness for C7: a passed, cleared obstacle matching the player's current
color rolls a 1 (≤ 4), latches, and raises the pending flag; applying a
pending change moves the player to a different palette color. -/
theorem C7_color_shuffle_witness :
    (processObstacle 600 3 0 baseGame
        { x := -20, color := "#ff4757", passed := true, type := OType.normal,
          colorChanged := false }).2.colorChanged = true ∧
    (processObstacle 600 3 0 baseGame
        { x := -20, color := "#ff4757", passed := true, type := OType.normal,
          colorChanged := false }).1.colorChangeOnNextObstacle = true ∧
    (applyColorChange 0 { baseGame with colorChangeOnNextObstacle := true }).player.color ≠
      { baseGame with colorChangeOnNextObstacle := true }.player.color ∧
    (applyColorChange 0 { baseGame with colorChangeOnNextObstacle := true }).player.color ∈
      COLORS ∧
    (applyColorChange 0 { baseGame with colorChangeOnNextObstacle := true
      }).colorChangeOnNextObstacle = false := by
  have h := C7_color_shuffle 600 3 0 0 baseGame
    { x := -20, color := "#ff4757", passed := true, type := OType.normal,
      colorChanged := false }
  have ha := h.1 (by decide) (by decide) (by decide)
  have hc := (C7_color_shuffle 600 3 0 0
    { baseGame with colorChangeOnNextObstacle := true }
    { x := -20, color := "#ff4757", passed := true, type := OType.normal,
      colorChanged := false }).2.2 (by decide) (by norm_num) (by norm_num)
  refine ⟨ha.1, ?_, hc.1, hc.2.1, hc.2.2⟩
  rw [ha.2]
  decide

/-- Concrete two-obstacle fixture for the C7 counterexample: the obstacle that
will be hit this tick while shielded (colors differing). -/
def c7Hit : Obstacle :=
  { x := 54, color := "#2ed573", passed := false, type := OType.normal,
    colorChanged := false }

/-- The already-passed, already-behind obstacle whose clearance roll will
recolor the player to match `c7Hit`. -/
def c7Behind : Obstacle :=
  { x := -20, color := "#ff4757", passed := true, type := OType.normal,
    colorChanged := false }

/-- The starting state of the C7 counterexample run: a shielded player of
color `"#ff4757"` in front of `c7Hit` and behind `c7Behind`. -/
def c7Game : Game :=
  { baseGame with
      player := { basePlayer with shield := 5 }
      obstacles := [c7Hit, c7Behind] }

/-- One counterexample tick: canvas 400 × 600 under the deterministic
`oracle0` (whose draws all lie in `[0,1)`, see `oracle0_valid`). -/
def c7Tick (g : Game) : Game := tick 400 600 oracle0 g

/-- Counterexample for C7 as stated: the 40%-roll is NOT restricted to
obstacles that were passed via a same-color match.  In this concrete run the
obstacle `c7Hit` is passed on tick 1 by the shielded different-color branch —
the colors differ at pass time and the award is exactly 1 point (a same-color
pass would award at least 10, and the score never rises above 1 in the whole
run, so no same-color award ever touches it).  Four ticks later it is the only
obstacle left, unrolled, and the player's color — changed at the end of tick 1
by `c7Behind`'s clearance roll — now matches it; on tick 5 its clearance roll
fires anyway: the `colorChanged` latch is set and the resulting pending player
color change is applied, moving the player's color again. -/
theorem C7_color_shuffle_counterexample :
    c7Game.player.color ≠ c7Hit.color ∧
    (c7Game.obstacles.getD 0 c7Behind) = c7Hit ∧
    c7Hit.passed = false ∧
    (c7Tick c7Game).score = c7Game.score + 1 ∧
    (c7Tick c7Game).player.shield = 0 ∧
    ((c7Tick c7Game).obstacles.getD 0 c7Behind).passed = true ∧
    (c7Tick (c7Tick (c7Tick (c7Tick c7Game)))).obstacles.length = 1 ∧
    ((c7Tick (c7Tick (c7Tick (c7Tick c7Game)))).obstacles.getD 0 c7Behind).colorChanged
      = false ∧
    ((c7Tick (c7Tick (c7Tick (c7Tick c7Game)))).obstacles.getD 0 c7Behind).color
      = c7Hit.color ∧
    (c7Tick (c7Tick (c7Tick (c7Tick c7Game)))).player.color = c7Hit.color ∧
    (c7Tick (c7Tick (c7Tick (c7Tick c7Game)))).score = 1 ∧
    ((c7Tick (c7Tick (c7Tick (c7Tick (c7Tick c7Game))))).obstacles.getD 0
      c7Behind).colorChanged = true ∧
    (c7Tick (c7Tick (c7Tick (c7Tick (c7Tick c7Game))))).player.color ≠
      (c7Tick (c7Tick (c7Tick (c7Tick c7Game)))).player.color ∧
    (c7Tick (c7Tick (c7Tick (c7Tick (c7Tick c7Game))))).score = 1 := by
  decide

/-! ## Claim C1 -/

/-- The state invariant of claim C1: lives in `[0, 3]`, jump count in
`[0, 2]` (the lower bounds are by the `ℤ` order and by `ℕ`), and — while the
session is not in game over — at least one life. -/
def StateInv (g : Game) : Prop :=
  0 ≤ g.player.lives ∧ g.player.lives ≤ 3 ∧ g.player.jumpCount ≤ 2 ∧
  (g.isGameOver = false → 1 ≤ g.player.lives)

/-- The strengthening that holds mid-tick: a player at 0 lives is inside the
post-damage invincibility window, so no further decrement can fire in the
same tick. -/
def MidInv (g : Game) : Prop :=
  StateInv g ∧ (g.player.lives = 0 → 0 < g.player.invincible)

lemma collisionPhase_midInv (ch speed : ℚ) (g : Game) (o : Obstacle)
    (h : MidInv g) : MidInv (collisionPhase ch speed g o).1 := by
  unfold MidInv StateInv at *
  unfold collisionPhase
  dsimp only
  split_ifs
  all_goals dsimp only
  all_goals refine ⟨⟨?_, ?_, ?_, fun hGO => ?_⟩, fun hl0 => ?_⟩
  all_goals simp_all
  all_goals omega

lemma colorShufflePhase_playerFrame (r : ℚ) (g : Game) (o : Obstacle) :
    (colorShufflePhase r g o).1.player = g.player ∧
    (colorShufflePhase r g o).1.isGameOver = g.isGameOver := by
  unfold colorShufflePhase
  split_ifs
  all_goals exact ⟨rfl, rfl⟩

lemma processObstacle_midInv (ch speed roll : ℚ) (g : Game) (o : Obstacle)
    (h : MidInv g) : MidInv (processObstacle ch speed roll g o).1 := by
  have hc := collisionPhase_midInv ch speed g o h
  unfold processObstacle
  rcases hcp : collisionPhase ch speed g o with ⟨g1, o1, b⟩
  rw [hcp] at hc
  dsimp only at hc
  cases b
  · dsimp only
    have hs := colorShufflePhase_playerFrame roll g1 o1
    unfold MidInv StateInv at *
    rw [hs.1, hs.2]
    exact hc
  · exact hc

lemma stepObstacles_midInv (ch speed : ℚ) (rolls : ℕ → ℚ) (i : ℕ) (g : Game)
    (os : List Obstacle) (h : MidInv g) :
    MidInv (stepObstacles ch speed rolls i g os).1 := by
  induction os generalizing i g with
  | nil => exact h
  | cons o rest ih =>
    unfold stepObstacles
    dsimp only
    exact ih (i + 1) _ (processObstacle_midInv ch speed (rolls i) g o h)

lemma processPowerUp_midInv (speed : ℚ) (g : Game) (q : PowerUp)
    (h : MidInv g) : MidInv (processPowerUp speed g q).1 := by
  obtain ⟨⟨h1, h2, h3, h4⟩, h5⟩ := h
  rcases q with ⟨qx, qy, qt, qc⟩
  unfold MidInv StateInv
  unfold processPowerUp
  dsimp only
  split_ifs
  all_goals cases qt
  all_goals dsimp only
  all_goals refine ⟨⟨?_, ?_, ?_, fun hGO => ?_⟩, fun hl0 => ?_⟩
  all_goals try have hx := h4 hGO
  all_goals try have hy := h5 hl0
  all_goals omega

lemma stepPowerUps_midInv (speed : ℚ) (g : Game) (qs : List PowerUp)
    (h : MidInv g) : MidInv (stepPowerUps speed g qs).1 := by
  induction qs generalizing g with
  | nil => exact h
  | cons q rest ih =>
    unfold stepPowerUps
    dsimp only
    exact ih _ (processPowerUp_midInv speed g q h)

lemma pruneOffscreen_playerFrame (g : Game) :
    (pruneOffscreen g).player = g.player ∧
    (pruneOffscreen g).isGameOver = g.isGameOver := by
  unfold pruneOffscreen
  exact ⟨rfl, rfl⟩

lemma runSpawn_playerFrame (cw a b : ℚ) (g : Game) :
    (runSpawn cw a b g).player = g.player ∧
    (runSpawn cw a b g).isGameOver = g.isGameOver := by
  unfold runSpawn
  dsimp only
  split_ifs
  all_goals exact ⟨rfl, rfl⟩

lemma runPowerUpSpawn_playerFrame (cw a b c : ℚ) (g : Game) :
    (runPowerUpSpawn cw a b c g).player = g.player ∧
    (runPowerUpSpawn cw a b c g).isGameOver = g.isGameOver := by
  unfold runPowerUpSpawn
  dsimp only
  split_ifs
  all_goals exact ⟨rfl, rfl⟩

lemma applyColorChange_playerFrame (rc : ℚ) (g : Game) :
    (applyColorChange rc g).player.lives = g.player.lives ∧
    (applyColorChange rc g).player.jumpCount = g.player.jumpCount ∧
    (applyColorChange rc g).isGameOver = g.isGameOver := by
  unfold applyColorChange
  split_ifs
  all_goals exact ⟨rfl, rfl, rfl⟩

lemma decTimers_playerFrame (g : Game) :
    (decTimers g).player.lives = g.player.lives ∧
    (decTimers g).player.jumpCount = g.player.jumpCount ∧
    (decTimers g).isGameOver = g.isGameOver := by
  unfold decTimers
  dsimp only
  split_ifs
  all_goals exact ⟨rfl, rfl, rfl⟩

lemma decCombo_playerFrame (g : Game) :
    (decCombo g).player = g.player ∧
    (decCombo g).isGameOver = g.isGameOver := by
  unfold decCombo
  split_ifs
  all_goals exact ⟨rfl, rfl⟩

lemma runObstacles_midInv (ch speed : ℚ) (rolls : ℕ → ℚ) (g : Game)
    (h : MidInv g) : MidInv (runObstacles ch speed rolls g) := by
  unfold runObstacles
  exact stepObstacles_midInv ch speed rolls 0 g g.obstacles h

lemma runPowerUps_midInv (speed : ℚ) (g : Game) (h : MidInv g) :
    MidInv (runPowerUps speed g) := by
  unfold runPowerUps
  exact stepPowerUps_midInv speed g g.powerUps h

/-- One tick preserves the state invariant when it starts outside game over
(the only way the browser schedules one). -/
lemma tick_stateInv (cw ch : ℚ) (or : TickOracle) (g : Game)
    (h : StateInv g) (hgo : g.isGameOver = false) :
    StateInv (tick cw ch or g) := by
  obtain ⟨h1, h2, h3, h4⟩ := h
  have hl1 : 1 ≤ g.player.lives := h4 hgo
  unfold tick
  dsimp only
  by_cases hstart : (updateBackground cw g).gameStarted = false
  · rw [if_pos hstart]
    exact ⟨h1, h2, h3, fun _ => hl1⟩
  · rw [if_neg hstart]
    have hmid0 : MidInv (setLevel (updatePhysics ch (updateBackground cw g))) := by
      unfold MidInv StateInv
      unfold setLevel updatePhysics updateBackground
      dsimp only
      split_ifs
      all_goals refine ⟨⟨?_, ?_, ?_, fun hGO => ?_⟩, fun hl0 => ?_⟩
      all_goals dsimp only at *
      all_goals omega
    have hmid := runPowerUps_midInv
      (currentSpeed (updatePhysics ch (updateBackground cw g)).score) _
      (runObstacles_midInv ch
        (currentSpeed (updatePhysics ch (updateBackground cw g)).score)
        or.rollRand _ hmid0)
    obtain ⟨⟨m1, m2, m3, m4⟩, _⟩ := hmid
    unfold StateInv
    rw [(decCombo_playerFrame _).1, (decCombo_playerFrame _).2,
      (decTimers_playerFrame _).1, (decTimers_playerFrame _).2.1,
      (decTimers_playerFrame _).2.2,
      (applyColorChange_playerFrame _ _).1, (applyColorChange_playerFrame _ _).2.1,
      (applyColorChange_playerFrame _ _).2.2,
      (runPowerUpSpawn_playerFrame _ _ _ _ _).1,
      (runPowerUpSpawn_playerFrame _ _ _ _ _).2,
      (runSpawn_playerFrame _ _ _ _).1, (runSpawn_playerFrame _ _ _ _).2,
      (pruneOffscreen_playerFrame _).1, (pruneOffscreen_playerFrame _).2]
    exact ⟨m1, m2, m3, m4⟩

lemma handleJump_stateInv (g : Game) (h : StateInv g) :
    StateInv (handleJump g) := by
  obtain ⟨h1, h2, h3, h4⟩ := h
  unfold StateInv
  unfold handleJump
  dsimp only
  split_ifs
  all_goals try dsimp only
  all_goals refine ⟨?_, ?_, ?_, fun hGO => ?_⟩
  all_goals try have h5 := h4 hGO
  all_goals omega

lemma initialGame_stateInv (store : ℤ) : StateInv (initialGame store) := by
  unfold StateInv initialGame
  refine ⟨by norm_num, by norm_num, by norm_num, fun _ => by norm_num⟩

/-- Every reachable state satisfies the lives/jump-count invariant. -/
lemma reachable_stateInv {g : Game} (hg : Reachable g) : StateInv g := by
  induction hg with
  | init store => exact initialGame_stateInv store
  | jump _ ih => exact handleJump_stateInv _ ih
  | tick cw ch or _ hval hgo ih => exact tick_stateInv cw ch or _ ih hgo
  | reset _ _ _ => exact initialGame_stateInv _

/-- A life power-up collected at 3 lives leaves the lives at 3 (the cap of
lines 849-854); all other power-ups leave lives alone. -/
lemma processPowerUp_lives_cap (speed : ℚ) (g : Game) (q : PowerUp)
    (h : g.player.lives = 3) : (processPowerUp speed g q).1.player.lives = 3 := by
  rcases q with ⟨qx, qy, qt, qc⟩
  unfold processPowerUp
  dsimp only
  split_ifs with hc hl
  all_goals cases qt
  all_goals first
    | exact h
    | omega

/-- Claim C1: for every reachable state, lives stay in `[0, 3]` and the jump
count in `[0, 2]` (the lower bounds hold by the `ℕ`/order structure); a jump
trigger with `jumpCount = 2` during play changes nothing; collecting a life
power-up at 3 lives leaves lives at 3; and a tick from any non-game-over
reachable state never drives lives below 0 — the first hit of a tick sets the
invincibility timer to 120, which suppresses any further decrement within the
same tick. -/
theorem C1_lives_jump_invariants (g : Game) (hg : Reachable g)
    (speed cw ch : ℚ) (q : PowerUp) (or : TickOracle) :
    (0 ≤ g.player.lives ∧ g.player.lives ≤ 3 ∧ g.player.jumpCount ≤ 2) ∧
    (g.gameStarted = true → g.isGameOver = false → g.player.jumpCount = 2 →
      handleJump g = g) ∧
    (g.player.lives = 3 → (processPowerUp speed g q).1.player.lives = 3) ∧
    (g.isGameOver = false →
      0 ≤ (tick cw ch or g).player.lives ∧ (tick cw ch or g).player.lives ≤ 3) := by
  have hinv := reachable_stateInv hg
  refine ⟨⟨hinv.1, hinv.2.1, hinv.2.2.1⟩, ?_, processPowerUp_lives_cap speed g q, ?_⟩
  · intro hstart hgo hjc
    unfold handleJump
    rw [hstart, hgo]
    rw [if_neg (by simp), if_neg (by simp), if_neg (by omega)]
  · intro hgo
    have ht := tick_stateInv cw ch or g hinv hgo
    exact ⟨ht.1, ht.2.1⟩

/-- Witness for C1 at the initial state (reachable by construction) with a
life power-up and the deterministic oracle. -/
theorem C1_lives_jump_invariants_witness :
    (0 ≤ (initialGame 0).player.lives ∧ (initialGame 0).player.lives ≤ 3 ∧
      (initialGame 0).player.jumpCount ≤ 2) ∧
    ((initialGame 0).gameStarted = true → (initialGame 0).isGameOver = false →
      (initialGame 0).player.jumpCount = 2 → handleJump (initialGame 0) = initialGame 0) ∧
    ((initialGame 0).player.lives = 3 →
      (processPowerUp 3 (initialGame 0)
        { x := 110, y := 300, type := PType.life, collected := false }).1.player.lives = 3) ∧
    ((initialGame 0).isGameOver = false →
      0 ≤ (tick 400 600 oracle0 (initialGame 0)).player.lives ∧
      (tick 400 600 oracle0 (initialGame 0)).player.lives ≤ 3) := by
  exact C1_lives_jump_invariants (initialGame 0) (Reachable.init 0) 3 400 600
    { x := 110, y := 300, type := PType.life, collected := false } oracle0
